import Mathlib

set_option linter.unusedVariables false

/-!
Shallow embedding of the Response-Driven Workflow Client
(src/examples-intent/json-integration.py).

JSON values are modelled by the inductive `Json` (numbers as rationals),
Python exceptions by `PyErr`, and fallible Python code by `Except PyErr`.
Console printing, subprocess invocation, file writing and process
termination are modelled as an effect trace (`Eff`) together with an
early-termination result (`Halt`), packaged in the writer-style monad
`PyM`.  The external CLI is an oracle `Cli` mapping a full argument
vector to the completed subprocess (or `none` for a spawn failure).
-/

/-- A JSON value.  Numbers are modelled as rationals. -/
inductive Json where
  | null : Json
  | bool : Bool → Json
  | num : Rat → Json
  | str : String → Json
  | arr : List Json → Json
  | obj : List (String × Json) → Json

/-- The Python exceptions that the source can raise. -/
inductive PyErr where
  | osError : PyErr
  | calledProcessError : PyErr
  | jsonDecodeError : PyErr
  | keyError : String → PyErr
  | typeError : PyErr
  | indexError : PyErr
  | runtimeError : String → PyErr

/-- Rendering of a rational for interpolated output strings. -/
def numStr (q : Rat) : String :=
  if q.den = 1 then toString q.num else toString q.num ++ "/" ++ toString q.den

/-- Rendering of a `Json` value inside an interpolated output string
(container rendering is abbreviated: print formatting is presentation
only and out of scope of the contract). -/
def pyStr : Json → String
  | .null => "None"
  | .bool true => "True"
  | .bool false => "False"
  | .num q => numStr q
  | .str s => s
  | .arr _ => "[...]"
  | .obj _ => "\x7b...\x7d"

/-- Python `d[k]` on a dict: the value, or a `KeyError`. -/
def getItem (d : List (String × Json)) (k : String) : Except PyErr Json :=
  match d.lookup k with
  | some v => .ok v
  | none => .error (.keyError k)

/-- Value expected to be a JSON object (Python: a dict). -/
def asObj : Json → Except PyErr (List (String × Json))
  | .obj fs => .ok fs
  | _ => .error .typeError

/-- Value expected to be a JSON array (Python: a list). -/
def asArr : Json → Except PyErr (List Json)
  | .arr xs => .ok xs
  | _ => .error .typeError

/-- Value expected to be a boolean. -/
def asBool : Json → Except PyErr Bool
  | .bool b => .ok b
  | _ => .error .typeError

/-- Value expected to be a string. -/
def asStr : Json → Except PyErr String
  | .str s => .ok s
  | _ => .error .typeError

/-- Value expected to be a number (used where the source compares it
against a numeric threshold). -/
def asNum : Json → Except PyErr Rat
  | .num q => .ok q
  | _ => .error .typeError

/-- Value expected to be an integer. -/
def asInt : Json → Except PyErr Int
  | .num q => if q.den = 1 then .ok q.num else .error .typeError
  | _ => .error .typeError

/-- Value expected to be an optional string (`None` or a string). -/
def asOptStr : Json → Except PyErr (Option String)
  | .null => .ok none
  | .str s => .ok (some s)
  | _ => .error .typeError

/-- Optional keyword argument of a dataclass: absent defaults to `None`. -/
def lookupOpt (fs : List (String × Json)) (k : String) : Except PyErr (Option String) :=
  match fs.lookup k with
  | none => .ok none
  | some v => asOptStr v

/-- Required keyword argument of a dataclass: absence is a `TypeError`
(Python raises `TypeError` for a missing required argument of
`JsonError(**e)` and friends). -/
def getKw (fs : List (String × Json)) (k : String) : Except PyErr Json :=
  match fs.lookup k with
  | some v => .ok v
  | none => .error .typeError

/-- Keyword expansion `Cls(**d)` rejects any key that is not a declared
field of the dataclass with a `TypeError`. -/
def guardKeys (allowed : List String) (fs : List (String × Json)) : Except PyErr Unit :=
  if fs.all (fun kv => decide (kv.1 ∈ allowed)) then .ok () else .error .typeError

/-- Dataclass `JsonError` of the source. -/
structure JsonError where
  code : String
  message : String
  location : Option String
  fix_hint : Option String
  fix_command : Option String

/-- Dataclass `NextAction` of the source. -/
structure NextAction where
  command : String
  reason : String

/-- Dataclass `JsonMetadata` of the source. -/
structure JsonMetadata where
  timestamp : String
  version : String
  exit_code : Int
  correlation_id : String
  duration_ms : Int

/-- Dataclass `JsonResponse` of the source. -/
structure JsonResponse where
  success : Bool
  action : String
  command : String
  data : List (String × Json)
  errors : List JsonError
  next_actions : List NextAction
  metadata : JsonMetadata
  spec_path : Option String

/-- Declared fields of `JsonError`. -/
def jsonErrorKeys : List String := ["code", "message", "location", "fix_hint", "fix_command"]

/-- Declared fields of `NextAction`. -/
def nextActionKeys : List String := ["command", "reason"]

/-- Declared fields of `JsonMetadata`. -/
def jsonMetadataKeys : List String :=
  ["timestamp", "version", "exit_code", "correlation_id", "duration_ms"]

/-- `JsonError(**e)` of the source: every key must be a declared field,
`code` and `message` are required, the rest default to `None`. -/
def mkJsonError (j : Json) : Except PyErr JsonError := do
  let fs ← asObj j
  let _u ← guardKeys jsonErrorKeys fs
  let code ← getKw fs "code" >>= asStr
  let message ← getKw fs "message" >>= asStr
  let location ← lookupOpt fs "location"
  let fix_hint ← lookupOpt fs "fix_hint"
  let fix_command ← lookupOpt fs "fix_command"
  .ok ⟨code, message, location, fix_hint, fix_command⟩

/-- `NextAction(**a)` of the source: exactly the fields `command` and
`reason`, both required. -/
def mkNextAction (j : Json) : Except PyErr NextAction := do
  let fs ← asObj j
  let _u ← guardKeys nextActionKeys fs
  let command ← getKw fs "command" >>= asStr
  let reason ← getKw fs "reason" >>= asStr
  .ok ⟨command, reason⟩

/-- `JsonMetadata(**m)` of the source: exactly the five declared fields,
all required. -/
def mkJsonMetadata (j : Json) : Except PyErr JsonMetadata := do
  let fs ← asObj j
  let _u ← guardKeys jsonMetadataKeys fs
  let timestamp ← getKw fs "timestamp" >>= asStr
  let version ← getKw fs "version" >>= asStr
  let exit_code ← getKw fs "exit_code" >>= asInt
  let correlation_id ← getKw fs "correlation_id" >>= asStr
  let duration_ms ← getKw fs "duration_ms" >>= asInt
  .ok ⟨timestamp, version, exit_code, correlation_id, duration_ms⟩

/-- Sequential mapping with exception propagation: the list
comprehensions `[JsonError(**e) for e in ...]` of the source. -/
def mapME {α β : Type} (f : α → Except PyErr β) : List α → Except PyErr (List β)
  | [] => .ok []
  | x :: xs =>
    match f x with
    | .error e => .error e
    | .ok y =>
      match mapME f xs with
      | .error e => .error e
      | .ok ys => .ok (y :: ys)

/-- The required fields of the `Response` wire object. -/
def requiredResponseKeys : List String :=
  ["success", "action", "command", "data", "errors", "next_actions", "metadata"]

/-- Mapping of parsed JSON into the `JsonResponse` shape: the body of
`run_intent_command` after `json.loads` (source lines 74-83).  Each
required field is read with `d[k]` (a `KeyError` when absent);
`spec_path` is read with `.get` (absent defaults to `None`). -/
def parseResponse (j : Json) : Except PyErr JsonResponse := do
  let fs ← asObj j
  let success ← getItem fs "success" >>= asBool
  let action ← getItem fs "action" >>= asStr
  let command ← getItem fs "command" >>= asStr
  let data ← getItem fs "data" >>= asObj
  let errorsArr ← getItem fs "errors" >>= asArr
  let errors ← mapME mkJsonError errorsArr
  let nextArr ← getItem fs "next_actions" >>= asArr
  let next_actions ← mapME mkNextAction nextArr
  let metadata ← getItem fs "metadata" >>= mkJsonMetadata
  let spec_path ← lookupOpt fs "spec_path"
  .ok ⟨success, action, command, data, errors, next_actions, metadata, spec_path⟩

/-- What the CLI wrote to standard output, as seen by `json.loads`:
either text that is not valid JSON, or a JSON value. -/
inductive Stdout where
  | invalidJson : Stdout
  | json : Json → Stdout

/-- Result of `subprocess.run`: the exit code and the captured output. -/
structure CompletedProcess where
  returncode : Int
  stdout : Stdout

/-- The external CLI as an oracle: a full argument vector maps to the
completed subprocess, or `none` when the process cannot be spawned at
all (an `OSError`). -/
def Cli : Type := List String → Option CompletedProcess

/-- `subprocess.run(full_command, capture_output=True, text=True, check=check)`:
spawn failure raises `OSError`; with `check` set, a nonzero exit code
raises `CalledProcessError`; otherwise the completed process is
returned. -/
def subprocessRun (check : Bool) (res : Option CompletedProcess) :
    Except PyErr CompletedProcess :=
  match res with
  | none => .error .osError
  | some p => if check && p.returncode != 0 then .error .calledProcessError else .ok p

/-- The argument vector built by `run_intent_command` (source line 62). -/
def fullCommand (command : String) (args : List String) : List String :=
  ["intent", command] ++ args ++ ["--json=true"]

/-- `run_intent_command` of the source (lines 60-83): run the CLI with
`check=False`, parse its standard output as JSON, and map it into the
`JsonResponse` shape. -/
def run_intent_command (cli : Cli) (command : String) (args : List String) :
    Except PyErr JsonResponse :=
  match subprocessRun false (cli (fullCommand command args)) with
  | .error e => .error e
  | .ok result =>
    match result.stdout with
    | .invalidJson => .error .jsonDecodeError
    | .json j => parseResponse j

/-- `is_success` of the source (lines 86-88). -/
def is_success (response : JsonResponse) : Bool :=
  response.success && (response.metadata.exit_code == 0)

/-- `get_error_messages` of the source (lines 91-93). -/
def get_error_messages (response : JsonResponse) : List String :=
  response.errors.map (fun e => e.message)

/-- `get_next_actions` of the source (lines 96-98). -/
def get_next_actions (response : JsonResponse) : List String :=
  response.next_actions.map (fun a => a.command)

/-- One observable side effect of a policy function. -/
inductive Eff where
  | print : String → Eff
  | printErr : String → Eff
  | invoke : List String → Eff
  | write : String → List (String × Json) → Eff

/-- Early termination of a policy function: `sys.exit(code)` or an
uncaught Python exception. -/
inductive Halt where
  | exited : Int → Halt
  | raised : PyErr → Halt

/-- Writer-plus-exception monad for policy functions: the effect trace
emitted so far together with either a value or an early termination. -/
def PyM (α : Type) : Type := List Eff × Except Halt α

/-- Monadic unit for `PyM`. -/
def PyM.pure {α : Type} (a : α) : PyM α := ([], .ok a)

/-- Monadic sequencing for `PyM`: effects accumulate; after an early
termination no further statement runs. -/
def PyM.bind {α β : Type} (x : PyM α) (f : α → PyM β) : PyM β :=
  match x with
  | (w, .error h) => (w, .error h)
  | (w, .ok a) => ((w ++ (f a).1, (f a).2) : PyM β)

instance : Monad PyM where
  pure := PyM.pure
  bind := PyM.bind

/-- Emit one effect. -/
def emit (e : Eff) : PyM Unit := ([e], .ok ())

/-- Emit a list of effects (a loop of prints that cannot fail). -/
def emitAll (es : List Eff) : PyM Unit := (es, .ok ())

/-- Terminate early: `sys.exit` or an uncaught exception. -/
def halt {α : Type} (h : Halt) : PyM α := ([], .error h)

/-- Run a fallible pure step inside a policy function; a raised Python
exception becomes an early termination. -/
def liftE {α : Type} (x : Except PyErr α) : PyM α :=
  match x with
  | .ok a => ([], .ok a)
  | .error e => ([], .error (.raised e))

/-- Final outcome of a policy function. -/
inductive Outcome where
  | ret : Outcome
  | exited : Int → Outcome
  | raised : PyErr → Outcome

/-- The outcome of a completed policy function run. -/
def outcomeOf (p : PyM Unit) : Outcome :=
  match p.2 with
  | .ok _ => .ret
  | .error (.exited n) => .exited n
  | .error (.raised e) => .raised e

/-- The effect trace of a completed policy function run. -/
def traceOf (p : PyM Unit) : List Eff := p.1

/-- Python truthiness of an optional string (`None` and the empty
string are falsy). -/
def truthyOpt : Option String → Bool
  | none => false
  | some s => !s.isEmpty

/-- Header line of the quality gate. -/
def qualityGateHeader (threshold : Int) : String :=
  "Running quality gate (threshold: " ++ toString threshold ++ ")..."

/-- The quality-score report line. -/
def qualityScoreMsg (score : Rat) : String :=
  "Quality score: " ++ numStr score ++ "/100"

/-- The failure line of the quality gate. -/
def qualityFailMsg (score : Rat) (threshold : Int) : String :=
  "\n❌ Quality gate failed: " ++ numStr score ++ " < " ++ toString threshold

/-- The pass message of the quality gate. -/
def qualityPassMsg (score : Rat) (threshold : Int) : String :=
  "✅ Quality gate passed: " ++ numStr score ++ " >= " ++ toString threshold

/-- A bulleted list item line. -/
def bulletMsg (j : Json) : String := "  • " ++ pyStr j

/-- `quality_gate` of the source (lines 105-137). -/
def quality_gate (cli : Cli) (spec_path : String) (threshold : Int) : PyM Unit := do
  emit (.print (qualityGateHeader threshold))
  emit (.invoke (fullCommand "quality" [spec_path]))
  let response ← liftE (run_intent_command cli "quality" [spec_path])
  if response.success = false then
    halt (.raised (.runtimeError ("Quality check failed:\n" ++
      String.intercalate "\n" (get_error_messages response))))
  let score ← liftE (getItem response.data "overall_score" >>= asNum)
  emit (.print (qualityScoreMsg score))
  if score < (threshold : Rat) then
    emit (.print (qualityFailMsg score threshold))
    emit (.print "\nIssues:")
    let issues ← liftE (getItem response.data "issues" >>= asArr)
    emitAll (issues.map (fun issue => Eff.print (bulletMsg issue)))
    emit (.print "\nSuggestions:")
    let suggestions ← liftE (getItem response.data "suggestions" >>= asArr)
    emitAll (suggestions.map (fun s => Eff.print (bulletMsg s)))
    halt (.exited 1)
  emit (.print (qualityPassMsg score threshold))
  if response.next_actions.isEmpty = false then
    emit (.print "\nSuggested next steps:")
    emitAll ((response.next_actions.map (fun a =>
      [Eff.print ("  " ++ a.command), Eff.print ("    → " ++ a.reason)])).flatten)

/-- Quality line of the CI/CD check. -/
def cicdQualityMsg (score : Rat) (threshold : Int) : String :=
  "Quality: " ++ numStr score ++ "/100 (threshold: " ++ toString threshold ++ ")"

/-- Coverage line of the CI/CD check. -/
def cicdCoverageMsg (score : Rat) (threshold : Rat) : String :=
  "\nCoverage: " ++ numStr score ++ "% (threshold: " ++ numStr threshold ++ ")"

/-- Critical-gaps line of the CI/CD check. -/
def cicdGapsMsg (count : Rat) : String := "\nCritical Gaps: " ++ numStr count

/-- Tests line of the CI/CD check. -/
def cicdTestsMsg (passed total : Json) : String :=
  "\nTests: " ++ pyStr passed ++ "/" ++ pyStr total ++ " passed"

/-- Failed-tests line of the CI/CD check. -/
def cicdFailedTestsMsg (failedCount : Rat) : String :=
  "  ❌ " ++ numStr failedCount ++ " tests failed"

/-- Python equality of the severity value with the string literal
critical: an arbitrary JSON value compares equal only when it is that
string. -/
def isCriticalSeverity : Json → Bool
  | .str s => s == "critical"
  | _ => false

/-- The critical-gap report loop of `cicd_check` (source lines 294-296). -/
def criticalGapPrints : List Json → PyM Unit
  | [] => PyM.pure ()
  | g :: rest => do
    let fs ← liftE (asObj g)
    let sev ← liftE (getItem fs "severity")
    if isCriticalSeverity sev then
      let desc ← liftE (getItem fs "description")
      emit (.print ("    • " ++ pyStr desc))
    criticalGapPrints rest

/-- `cicd_check` of the source (lines 254-315). -/
def cicd_check (cli : Cli) (spec_path : String) (quality_threshold : Int)
    (coverage_threshold : Rat) (allow_critical_gaps : Bool) : PyM Unit := do
  emit (.print "=== CI/CD Quality Check ===\n")
  emit (.invoke (fullCommand "quality" [spec_path]))
  let quality ← liftE (run_intent_command cli "quality" [spec_path])
  let quality_score ← liftE (getItem quality.data "overall_score" >>= asNum)
  emit (.print (cicdQualityMsg quality_score quality_threshold))
  let qFail : Bool := decide (quality_score < (quality_threshold : Rat))
  if qFail then emit (.print "  ❌ Below threshold") else emit (.print "  ✅ Passed")
  emit (.invoke (fullCommand "coverage" [spec_path]))
  let coverage ← liftE (run_intent_command cli "coverage" [spec_path])
  let coverage_score ← liftE (getItem coverage.data "overall_score" >>= asNum)
  emit (.print (cicdCoverageMsg coverage_score coverage_threshold))
  let cFail : Bool := decide (coverage_score < coverage_threshold)
  if cFail then emit (.print "  ❌ Below threshold") else emit (.print "  ✅ Passed")
  emit (.invoke (fullCommand "gaps" [spec_path]))
  let gaps ← liftE (run_intent_command cli "gaps" [spec_path])
  let breakdown ← liftE (getItem gaps.data "severity_breakdown" >>= asObj)
  let critical_count ← liftE (getItem breakdown "critical" >>= asNum)
  emit (.print (cicdGapsMsg critical_count))
  let gFail : Bool := decide ((0 : Rat) < critical_count) && !allow_critical_gaps
  if gFail then
    emit (.print "  ❌ Critical gaps not allowed")
    let security_gaps ← liftE (getItem gaps.data "security_gaps" >>= asArr)
    criticalGapPrints security_gaps
  else
    emit (.print "  ✅ Passed")
  emit (.invoke (fullCommand "check" [spec_path]))
  let check ← liftE (run_intent_command cli "check" [spec_path])
  let passed ← liftE (getItem check.data "passed")
  let total ← liftE (getItem check.data "total")
  emit (.print (cicdTestsMsg passed total))
  let failedCount ← liftE (getItem check.data "failed" >>= asNum)
  let tFail : Bool := decide ((0 : Rat) < failedCount)
  if tFail then emit (.print (cicdFailedTestsMsg failedCount))
  else emit (.print "  ✅ All tests passed")
  if qFail || cFail || gFail || tFail then
    emit (.print "\n❌ CI/CD check failed")
    halt (.exited 1)
  emit (.print "\n✅ CI/CD check passed")

/-- The fix-bead report loop of `test_with_feedback` (source lines
238-243), with Python enumeration starting at `i`. -/
def beadPrints : Nat → List Json → PyM Unit
  | _, [] => PyM.pure ()
  | i, bead :: rest => do
    let fs ← liftE (asObj bead)
    let bn ← liftE (getItem fs "behavior_name")
    let pri ← liftE (getItem fs "priority")
    emit (.print ("\n" ++ toString i ++ ". " ++ pyStr bn ++ " (Priority: " ++ pyStr pri ++ ")"))
    let ft ← liftE (getItem fs "feature")
    emit (.print ("   Feature: " ++ pyStr ft))
    let fty ← liftE (getItem fs "failure_type")
    emit (.print ("   Type: " ++ pyStr fty))
    let de ← liftE (getItem fs "description")
    emit (.print ("   Issue: " ++ pyStr de))
    let fx ← liftE (getItem fs "fix_suggestion")
    emit (.print ("   Fix: " ++ pyStr fx))
    beadPrints (i + 1) rest

/-- `test_with_feedback` of the source (lines 213-247). -/
def test_with_feedback (cli : Cli) (spec_path : String) : PyM Unit := do
  emit (.print "Running tests...\n")
  emit (.invoke (fullCommand "check" [spec_path]))
  let check_response ← liftE (run_intent_command cli "check" [spec_path])
  emit (.print "Test Results:")
  let total ← liftE (getItem check_response.data "total")
  emit (.print ("  Total:    " ++ pyStr total))
  let passed ← liftE (getItem check_response.data "passed")
  emit (.print ("  Passed:   " ++ pyStr passed))
  let failedV ← liftE (getItem check_response.data "failed")
  emit (.print ("  Failed:   " ++ pyStr failedV))
  let skipped ← liftE (getItem check_response.data "skipped")
  emit (.print ("  Skipped:  " ++ pyStr skipped))
  let duration ← liftE (getItem check_response.data "duration_ms")
  emit (.print ("  Duration: " ++ pyStr duration ++ "ms"))
  let failedCount ← liftE (getItem check_response.data "failed" >>= asNum)
  if (0 : Rat) < failedCount then
    emit (.print "\n❌ Tests failed. Generating fix beads...\n")
    emit (.write "check-results.json" check_response.data)
    emit (.invoke (fullCommand "feedback" ["--results", "check-results.json"]))
    let feedback ← liftE (run_intent_command cli "feedback" ["--results", "check-results.json"])
    emit (.print "Fix Beads Generated:")
    let fix_beads ← liftE (getItem feedback.data "fix_beads" >>= asArr)
    beadPrints 1 fix_beads
    halt (.exited 1)
  emit (.print "\n✅ All tests passed!")

/-- Worker for `pySplit`: walk the characters, collecting the current
token in reverse. -/
def pySplitAux : List Char → List Char → List String
  | [], acc => if acc.isEmpty then [] else [String.mk acc.reverse]
  | ch :: cs, acc =>
    if ch.isWhitespace then
      if acc.isEmpty then pySplitAux cs []
      else String.mk acc.reverse :: pySplitAux cs []
    else pySplitAux cs (ch :: acc)

/-- Python `str.split()` with no separator: split on runs of whitespace,
discarding empty pieces. -/
def pySplit (s : String) : List String := pySplitAux s.toList []

/-- Python `s.startswith(marker)`. -/
def pyStartsWith (s marker : String) : Bool := marker.toList.isPrefixOf s.toList

/-- The while-loop of `auto_workflow` (source lines 329-344), with the
remaining iteration budget `max_depth - depth` made explicit. -/
def auto_workflow_loop (cli : Cli) : JsonResponse → Nat → Nat → PyM Unit
  | _, _, 0 => PyM.pure ()
  | response, depth, rem + 1 =>
    match response.next_actions with
    | [] => PyM.pure ()
    | next_action :: _ => do
      emit (.print ("\n=== Step " ++ toString (depth + 1) ++ " ==="))
      emit (.print ("Command: " ++ response.command))
      emit (.print ("Action: " ++ response.action))
      emit (.print ("\nNext: " ++ next_action.command))
      emit (.print ("Reason: " ++ next_action.reason))
      match pySplit next_action.command with
      | _t0 :: command :: rest => do
        let args := rest.filter (fun a => !pyStartsWith a "--")
        emit (.invoke (fullCommand command args))
        let response2 ← liftE (run_intent_command cli command args)
        auto_workflow_loop cli response2 (depth + 1) rem
      | _ => halt (.raised .indexError)

/-- `auto_workflow` of the source (lines 322-346). -/
def auto_workflow (cli : Cli) (spec_path : String) (max_depth : Nat) : PyM Unit := do
  emit (.print "Starting automated workflow...\n")
  emit (.invoke (fullCommand "quality" [spec_path]))
  let response ← liftE (run_intent_command cli "quality" [spec_path])
  auto_workflow_loop cli response 0 max_depth
  emit (.print "\n=== Workflow Complete ===")

/-- Error-detail lines guarded by Python truthiness (an absent or empty
optional string prints nothing). -/
def optLinePrints (label : String) (o : Option String) : List Eff :=
  if truthyOpt o then [Eff.print (label ++ o.getD "")] else []

/-- The per-error report lines of `robust_execution` (source lines 360-367). -/
def errorEffs (e : JsonError) : List Eff :=
  Eff.print ("  [" ++ e.code ++ "] " ++ e.message) ::
  (optLinePrints "    at " e.location ++ optLinePrints "    hint: " e.fix_hint ++
    optLinePrints "    fix: " e.fix_command)

/-- Diagnostic rendering of a Python exception (`str(error)`). -/
def pyErrMsg : PyErr → String
  | .osError => "OSError"
  | .calledProcessError => "CalledProcessError"
  | .jsonDecodeError => "JSONDecodeError"
  | .keyError k => "KeyError: " ++ k
  | .typeError => "TypeError"
  | .indexError => "IndexError"
  | .runtimeError m => m

/-- `robust_execution` of the source (lines 353-384): the try-body, with
any raised exception (but not `sys.exit`, which Python models as
`SystemExit` outside `Exception`) caught at the top and converted into
an error-stream diagnostic plus exit code 4. -/
def robust_execution (cli : Cli) (spec_path : String) : PyM Unit :=
  let body : PyM Unit := do
    emit (.invoke (fullCommand "quality" [spec_path]))
    let response ← liftE (run_intent_command cli "quality" [spec_path])
    if response.success = false then
      emit (.print "Command failed:")
      emitAll ((response.errors.map errorEffs).flatten)
      let fixable_errors := response.errors.filter (fun e => truthyOpt e.fix_command)
      if fixable_errors.isEmpty = false then
        emit (.print "\nAttempting auto-fix...")
        emitAll (fixable_errors.map (fun e => Eff.print ("Running: " ++ e.fix_command.getD "")))
      halt (.exited response.metadata.exit_code)
    emit (.print "✅ Success")
    emit (.print ("Correlation ID: " ++ response.metadata.correlation_id))
  match body with
  | (w, .error (.raised e)) =>
    ((w ++ [Eff.printErr ("Execution error: " ++ pyErrMsg e)], .error (.exited 4)) : PyM Unit)
  | other => other

/-- The subprocess invocations contained in an effect trace. -/
def invokesOf (es : List Eff) : List (List String) :=
  es.filterMap (fun e => match e with | .invoke argv => some argv | _ => none)

/-- The file writes contained in an effect trace. -/
def writesOf (es : List Eff) : List (String × List (String × Json)) :=
  es.filterMap (fun e => match e with | .write n c => some (n, c) | _ => none)

/-- Modelled from the spec (§4.4, Chained Workflow Driver), as a
reference point for refinement: split the next-action command string on
whitespace, discard the leading tool-name token, take the second token
as the sub-command and the remaining tokens that do not begin with the
flag marker as positional arguments. -/
def specActionArgs (command_line : String) : Option (String × List String) :=
  match pySplit command_line with
  | _tool :: sub :: rest => some (sub, rest.filter (fun t => !pyStartsWith t "--"))
  | _ => none

/-- Metadata fields of a well-formed response JSON with exit code `ec`. -/
def metaFieldsJ (ec : Int) : List (String × Json) :=
  [("timestamp", .str "t"), ("version", .str "1"), ("exit_code", .num (ec : Rat)),
   ("correlation_id", .str "cid"), ("duration_ms", .num 5)]

/-- Field list of a well-formed response JSON object. -/
def mkRespFields (success : Bool) (data : List (String × Json)) (errorsJ : List Json)
    (nextJ : List Json) (ec : Int) : List (String × Json) :=
  [("success", .bool success), ("action", .str "analyze"), ("command", .str "quality"),
   ("data", .obj data), ("errors", .arr errorsJ), ("next_actions", .arr nextJ),
   ("metadata", .obj (metaFieldsJ ec))]

/-- A well-formed response JSON object. -/
def mkRespJson (success : Bool) (data : List (String × Json)) (errorsJ : List Json)
    (nextJ : List Json) (ec : Int) : Json :=
  .obj (mkRespFields success data errorsJ nextJ ec)

/-- The parsed form of `mkRespJson` (for concrete checks). -/
def mkResp (success : Bool) (data : List (String × Json)) (errors : List JsonError)
    (next_actions : List NextAction) (ec : Int) : JsonResponse :=
  ⟨success, "analyze", "quality", data, errors, next_actions, ⟨"t", "1", ec, "cid", 5⟩, none⟩

/-- A response that reports `success=true` while `metadata.exit_code=7`. -/
def mismatchJson : Json := mkRespJson true [("overall_score", .num 90)] [] [] 7

/-- The parsed mismatch response. -/
def mismatchResponse : JsonResponse := mkResp true [("overall_score", .num 90)] [] [] 7

/-- A CLI that always answers with the mismatch response and process
exit code 0. -/
def mismatchCli : Cli := fun _ => some ⟨0, .json mismatchJson⟩

/-- Quality response with `overall_score=79`, issues and suggestions. -/
def c2Json79 : Json := mkRespJson true
  [("overall_score", .num 79), ("issues", .arr [.str "too short"]),
   ("suggestions", .arr [.str "add detail"])] [] [] 0

/-- Quality response with `overall_score=80`. -/
def c2Json80 : Json := mkRespJson true [("overall_score", .num 80)] [] [] 0

/-- CLI answering with the score-79 response. -/
def c2Cli79 : Cli := fun _ => some ⟨0, .json c2Json79⟩

/-- CLI answering with the score-80 response. -/
def c2Cli80 : Cli := fun _ => some ⟨0, .json c2Json80⟩

/-- Parsed score-79 response. -/
def c2Resp79 : JsonResponse := mkResp true
  [("overall_score", .num 79), ("issues", .arr [.str "too short"]),
   ("suggestions", .arr [.str "add detail"])] [] [] 0

/-- Parsed score-80 response. -/
def c2Resp80 : JsonResponse := mkResp true [("overall_score", .num 80)] [] [] 0

/-- Quality response for the CI/CD scenario (`overall_score=90`). -/
def c3QualityJson : Json := mkRespJson true [("overall_score", .num 90)] [] [] 0

/-- Coverage response for the CI/CD scenario (`overall_score=60.0`). -/
def c3CoverageJson : Json := mkRespJson true [("overall_score", .num 60)] [] [] 0

/-- Gaps response for the CI/CD scenario (`critical=0`). -/
def c3GapsJson : Json := mkRespJson true
  [("severity_breakdown", .obj [("critical", .num 0)]), ("security_gaps", .arr [])] [] [] 0

/-- Check response for the CI/CD scenario (`failed=0`). -/
def c3CheckJson : Json := mkRespJson true
  [("passed", .num 5), ("total", .num 5), ("failed", .num 0)] [] [] 0

/-- CLI serving the four CI/CD sub-commands. -/
def c3Cli : Cli := fun argv =>
  if argv = fullCommand "quality" ["spec.cue"] then some ⟨0, .json c3QualityJson⟩
  else if argv = fullCommand "coverage" ["spec.cue"] then some ⟨0, .json c3CoverageJson⟩
  else if argv = fullCommand "gaps" ["spec.cue"] then some ⟨0, .json c3GapsJson⟩
  else some ⟨0, .json c3CheckJson⟩

/-- Parsed CI/CD quality response. -/
def c3QualityResp : JsonResponse := mkResp true [("overall_score", .num 90)] [] [] 0

/-- Parsed CI/CD coverage response. -/
def c3CoverageResp : JsonResponse := mkResp true [("overall_score", .num 60)] [] [] 0

/-- Parsed CI/CD gaps response. -/
def c3GapsResp : JsonResponse := mkResp true
  [("severity_breakdown", .obj [("critical", .num 0)]), ("security_gaps", .arr [])] [] [] 0

/-- Parsed CI/CD check response. -/
def c3CheckResp : JsonResponse := mkResp true
  [("passed", .num 5), ("total", .num 5), ("failed", .num 0)] [] [] 0

/-- The next action suggested forever by the chaining CLI. -/
def c4Na : NextAction := ⟨"intent coverage spec.cue --json=true", "next"⟩

/-- Response that always suggests one further action. -/
def c4Json : Json := mkRespJson true [("overall_score", .num 50)] []
  [.obj [("command", .str "intent coverage spec.cue --json=true"), ("reason", .str "next")]] 0

/-- CLI that returns the chaining response for every invocation. -/
def c4Cli : Cli := fun _ => some ⟨0, .json c4Json⟩

/-- Parsed chaining response. -/
def c4Resp : JsonResponse := mkResp true [("overall_score", .num 50)] [] [c4Na] 0

/-- Failing response with `metadata.exit_code=7`. -/
def c5FailJson : Json := mkRespJson false [] [] [] 7

/-- Parsed failing response with exit code 7. -/
def c5FailResp : JsonResponse := mkResp false [] [] [] 7

/-- CLI whose response reports failure with exit code 7. -/
def c5GoodCli : Cli := fun _ => some ⟨1, .json c5FailJson⟩

/-- CLI whose standard output is not valid JSON. -/
def c5BadCli : Cli := fun _ => some ⟨0, .invalidJson⟩

/-- Check response with zero failures. -/
def c6Check0Json : Json := mkRespJson true
  [("total", .num 5), ("passed", .num 5), ("failed", .num 0), ("skipped", .num 0),
   ("duration_ms", .num 10)] [] [] 0

/-- Check response with two failures. -/
def c6Check2Json : Json := mkRespJson true
  [("total", .num 5), ("passed", .num 3), ("failed", .num 2), ("skipped", .num 0),
   ("duration_ms", .num 10)] [] [] 1

/-- One structured fix bead. -/
def c6Bead : Json := .obj [("behavior_name", .str "login works"), ("priority", .str "high"),
  ("feature", .str "auth"), ("failure_type", .str "assertion"),
  ("description", .str "login fails"), ("fix_suggestion", .str "fix token")]

/-- Feedback response carrying two fix beads. -/
def c6FeedbackJson : Json := mkRespJson true [("fix_beads", .arr [c6Bead, c6Bead])] [] [] 0

/-- CLI with a clean check run. -/
def c6Cli0 : Cli := fun _ => some ⟨0, .json c6Check0Json⟩

/-- CLI serving a failing check run and then the feedback command. -/
def c6Cli2 : Cli := fun argv =>
  if argv = fullCommand "check" ["spec.cue"] then some ⟨1, .json c6Check2Json⟩
  else some ⟨0, .json c6FeedbackJson⟩

/-- Parsed clean check response. -/
def c6Resp0 : JsonResponse := mkResp true
  [("total", .num 5), ("passed", .num 5), ("failed", .num 0), ("skipped", .num 0),
   ("duration_ms", .num 10)] [] [] 0

/-- Parsed failing check response. -/
def c6Resp2 : JsonResponse := mkResp true
  [("total", .num 5), ("passed", .num 3), ("failed", .num 2), ("skipped", .num 0),
   ("duration_ms", .num 10)] [] [] 1

/-- Parsed feedback response. -/
def c6FbResp : JsonResponse := mkResp true [("fix_beads", .arr [c6Bead, c6Bead])] [] [] 0

/-- Otherwise-valid response JSON fields with the `success` field absent. -/
def c7Fields : List (String × Json) :=
  [("action", .str "analyze"), ("command", .str "quality"), ("data", .obj []),
   ("errors", .arr []), ("next_actions", .arr []), ("metadata", .obj (metaFieldsJ 0))]

/-- CLI whose process exits 3 while the body parses fine. -/
def c8Cli : Cli := fun _ => some ⟨3, .json c2Json80⟩

/-- CLI whose process cannot be spawned. -/
def c8NoneCli : Cli := fun _ => none

/-- Response fields whose `errors` entry carries the undeclared key
`severity`. -/
def c10Fields : List (String × Json) :=
  mkRespFields false [] [.obj [("code", .str "E1"), ("message", .str "m"),
    ("severity", .str "high")]] [] 1

/-- A CLI whose every response parses successfully and carries a
non-empty `next_actions` list whose first command tokenizes into a
tool-name token, a sub-command token and a remainder. -/
def AlwaysChains (cli : Cli) : Prop :=
  ∀ (c : String) (a : List String), ∃ (r : JsonResponse) (na : NextAction)
    (rest2 : List NextAction) (t0 t1 : String) (ts : List String),
    run_intent_command cli c a = .ok r ∧ r.next_actions = na :: rest2 ∧
    pySplit na.command = t0 :: t1 :: ts

/-- A fix bead whose six report fields are all present. -/
def WellFormedBead (b : Json) : Prop :=
  ∃ fs, b = Json.obj fs ∧ (fs.lookup "behavior_name").isSome ∧
    (fs.lookup "priority").isSome ∧ (fs.lookup "feature").isSome ∧
    (fs.lookup "failure_type").isSome ∧ (fs.lookup "description").isSome ∧
    (fs.lookup "fix_suggestion").isSome


theorem exceptBind_eq {α β : Type} (x : Except PyErr α) (f : α → Except PyErr β) :
    x >>= f = Except.bind x f := rfl

theorem pymBind_eq {α β : Type} (x : PyM α) (f : α → PyM β) :
    (x >>= f) = PyM.bind x f := rfl

theorem pymBind_ok {α β : Type} (w : List Eff) (a : α) (f : α → PyM β) :
    PyM.bind (w, Except.ok a) f = ((w ++ (f a).1, (f a).2) : PyM β) := rfl

theorem pymBind_error {α β : Type} (w : List Eff) (h : Halt) (f : α → PyM β) :
    PyM.bind (w, Except.error h) f = ((w, Except.error h) : PyM β) := rfl

theorem emit_eq (e : Eff) : emit e = (([e], Except.ok ()) : PyM Unit) := rfl

theorem emitAll_eq (es : List Eff) : emitAll es = ((es, Except.ok ()) : PyM Unit) := rfl

theorem halt_eq {α : Type} (h : Halt) : halt h = (([], Except.error h) : PyM α) := rfl

theorem liftE_ok {α : Type} (a : α) : liftE (Except.ok a) = (([], Except.ok a) : PyM α) := rfl

theorem liftE_error {α : Type} (e : PyErr) :
    liftE (Except.error e) = (([], Except.error (Halt.raised e)) : PyM α) := rfl

theorem pymPure_eq {α : Type} (a : α) : (Pure.pure a : PyM α) = (([], Except.ok a) : PyM α) := rfl

theorem getItem_of_lookup {d : List (String × Json)} {k : String} {v : Json}
    (h : d.lookup k = some v) : getItem d k = .ok v := by
  simp [getItem, h]

theorem getNum_of_lookup {d : List (String × Json)} {k : String} {q : Rat}
    (h : d.lookup k = some (Json.num q)) : getItem d k >>= asNum = .ok q := by
  simp [getItem, h, asNum, exceptBind_eq, Except.bind]

theorem getArr_of_lookup {d : List (String × Json)} {k : String} {xs : List Json}
    (h : d.lookup k = some (Json.arr xs)) : getItem d k >>= asArr = .ok xs := by
  simp [getItem, h, asArr, exceptBind_eq, Except.bind]

theorem getObj_of_lookup {d : List (String × Json)} {k : String} {fs : List (String × Json)}
    (h : d.lookup k = some (Json.obj fs)) : getItem d k >>= asObj = .ok fs := by
  simp [getItem, h, asObj, exceptBind_eq, Except.bind]

theorem outcomeOf_ok (w : List Eff) : outcomeOf (w, Except.ok ()) = Outcome.ret := rfl

theorem outcomeOf_exited (w : List Eff) (n : Int) :
    outcomeOf (w, Except.error (Halt.exited n)) = Outcome.exited n := rfl

theorem outcomeOf_raised (w : List Eff) (e : PyErr) :
    outcomeOf (w, Except.error (Halt.raised e)) = Outcome.raised e := rfl

theorem traceOf_mk (w : List Eff) (r : Except Halt Unit) : traceOf (w, r) = w := rfl

/-- Claim C1, amended: the helper is_success does treat a response with
success set and a nonzero metadata exit code as a failure (it returns
false), but the policy functions branch only on the success flag; in
particular the Quality Gate proceeds on the success path for such a
mismatched response, returning normally and printing the pass message
whenever the score meets the threshold. -/
theorem c1_amended_thm (cli : Cli) (sp : String) (r : JsonResponse) (q : Rat)
    (h1 : run_intent_command cli "quality" [sp] = .ok r)
    (h2 : r.success = true)
    (h3 : r.metadata.exit_code ≠ 0)
    (h4 : r.data.lookup "overall_score" = some (.num q))
    (h5 : (80 : Rat) ≤ q) :
    is_success r = false ∧
    outcomeOf (quality_gate cli sp 80) = Outcome.ret ∧
    Eff.print (qualityPassMsg q 80) ∈ traceOf (quality_gate cli sp 80) := by
  have hscore : getItem r.data "overall_score" >>= asNum = .ok q := getNum_of_lookup h4
  have hgate : quality_gate cli sp 80 = (([Eff.print (qualityGateHeader 80),
      Eff.invoke (fullCommand "quality" [sp]), Eff.print (qualityScoreMsg q),
      Eff.print (qualityPassMsg q 80)] ++
      (if r.next_actions.isEmpty = false then
        Eff.print "\nSuggested next steps:" ::
          (r.next_actions.map (fun a =>
            [Eff.print ("  " ++ a.command), Eff.print ("    → " ++ a.reason)])).flatten
       else []), Except.ok ()) : PyM Unit) := by
    simp only [quality_gate, h1, hscore, h2, pymBind_eq, pymBind_ok, pymBind_error,
      emit_eq, emitAll_eq, halt_eq, liftE_ok, liftE_error, pymPure_eq]
    simp [not_lt.mpr h5]
    split <;> rfl
  refine ⟨?_, ?_, ?_⟩
  · simp [is_success, h2]
    exact h3
  · rw [hgate]; exact outcomeOf_ok _
  · rw [hgate, traceOf_mk]
    simp

/-- Claim C1, counterexample: a concrete parsed response with success
set and metadata exit code 7 (a mismatch, as is_success confirms) on
which the Quality Gate proceeds on the success path: it returns
normally and its whole output is the pass-side trace, so the mismatch
is not treated as a failure. -/
theorem c1_counterexample :
    parseResponse mismatchJson = .ok mismatchResponse ∧
    mismatchResponse.success = true ∧
    mismatchResponse.metadata.exit_code = 7 ∧
    is_success mismatchResponse = false ∧
    outcomeOf (quality_gate mismatchCli "spec.cue" 80) = Outcome.ret ∧
    traceOf (quality_gate mismatchCli "spec.cue" 80) =
      [Eff.print (qualityGateHeader 80), Eff.invoke (fullCommand "quality" ["spec.cue"]),
       Eff.print (qualityScoreMsg 90), Eff.print (qualityPassMsg 90 80)] :=
  ⟨rfl, rfl, rfl, rfl, rfl, rfl⟩

/-- Witness for the amended claim C1 at the concrete mismatch input. -/
theorem c1_witness :
    is_success mismatchResponse = false ∧
    outcomeOf (quality_gate mismatchCli "spec.cue" 80) = Outcome.ret ∧
    Eff.print (qualityPassMsg 90 80) ∈ traceOf (quality_gate mismatchCli "spec.cue" 80) :=
  c1_amended_thm mismatchCli "spec.cue" mismatchResponse 90 rfl rfl (by decide) rfl (by norm_num)

/-- Claim C2: for the Quality Gate with threshold 80 and a successful
quality response, a score of 79 terminates the process with exit code 1
after printing every string in data.issues and every string in
data.suggestions, while a score of 80 does not terminate the process
and prints the pass message. -/
theorem c2_thm (cli79 cli80 : Cli) (sp : String) (r79 r80 : JsonResponse)
    (issues suggestions : List Json)
    (h1 : run_intent_command cli79 "quality" [sp] = .ok r79)
    (h2 : r79.success = true)
    (h3 : r79.data.lookup "overall_score" = some (.num 79))
    (h4 : r79.data.lookup "issues" = some (.arr issues))
    (h5 : r79.data.lookup "suggestions" = some (.arr suggestions))
    (h6 : run_intent_command cli80 "quality" [sp] = .ok r80)
    (h7 : r80.success = true)
    (h8 : r80.data.lookup "overall_score" = some (.num 80)) :
    outcomeOf (quality_gate cli79 sp 80) = Outcome.exited 1 ∧
    (∀ s, Json.str s ∈ issues → Eff.print ("  • " ++ s) ∈ traceOf (quality_gate cli79 sp 80)) ∧
    (∀ s, Json.str s ∈ suggestions →
      Eff.print ("  • " ++ s) ∈ traceOf (quality_gate cli79 sp 80)) ∧
    outcomeOf (quality_gate cli80 sp 80) = Outcome.ret ∧
    Eff.print (qualityPassMsg 80 80) ∈ traceOf (quality_gate cli80 sp 80) := by
  have hlt : (79 : Rat) < ((80 : Int) : Rat) := by norm_num
  have hlt2 : (79 : Rat) < (80 : Rat) := by norm_num
  have hgate79 : quality_gate cli79 sp 80 =
      ((Eff.print (qualityGateHeader 80) :: Eff.invoke (fullCommand "quality" [sp]) ::
        Eff.print (qualityScoreMsg 79) :: Eff.print (qualityFailMsg 79 80) ::
        Eff.print "\nIssues:" ::
        (issues.map (fun i => Eff.print (bulletMsg i)) ++ Eff.print "\nSuggestions:" ::
          suggestions.map (fun s => Eff.print (bulletMsg s))),
        Except.error (Halt.exited 1)) : PyM Unit) := by
    simp only [quality_gate, h1, h2, getNum_of_lookup h3, getArr_of_lookup h4,
      getArr_of_lookup h5, pymBind_eq, pymBind_ok, pymBind_error,
      emit_eq, emitAll_eq, halt_eq, liftE_ok, liftE_error, pymPure_eq]
    simp [hlt, hlt2]
  have hge : ¬ ((80 : Rat) < ((80 : Int) : Rat)) := by norm_num
  have hge2 : ¬ ((80 : Rat) < (80 : Rat)) := by norm_num
  have hgate80 : quality_gate cli80 sp 80 = (([Eff.print (qualityGateHeader 80),
      Eff.invoke (fullCommand "quality" [sp]), Eff.print (qualityScoreMsg 80),
      Eff.print (qualityPassMsg 80 80)] ++
      (if r80.next_actions.isEmpty = false then
        Eff.print "\nSuggested next steps:" ::
          (r80.next_actions.map (fun a =>
            [Eff.print ("  " ++ a.command), Eff.print ("    → " ++ a.reason)])).flatten
       else []), Except.ok ()) : PyM Unit) := by
    simp only [quality_gate, h6, h7, getNum_of_lookup h8, pymBind_eq, pymBind_ok,
      pymBind_error, emit_eq, emitAll_eq, halt_eq, liftE_ok, liftE_error, pymPure_eq]
    simp [hge, hge2]
    split <;> rfl
  refine ⟨?_, ?_, ?_, ?_, ?_⟩
  · rw [hgate79]; rfl
  · intro s hs
    rw [hgate79, traceOf_mk]
    have hb : Eff.print ("  • " ++ s) = Eff.print (bulletMsg (Json.str s)) := rfl
    rw [hb]
    simp only [List.mem_cons, List.mem_append]
    exact Or.inr (Or.inr (Or.inr (Or.inr (Or.inr (Or.inl (List.mem_map_of_mem _ hs))))))
  · intro s hs
    rw [hgate79, traceOf_mk]
    have hb : Eff.print ("  • " ++ s) = Eff.print (bulletMsg (Json.str s)) := rfl
    rw [hb]
    simp only [List.mem_cons, List.mem_append]
    exact Or.inr (Or.inr (Or.inr (Or.inr (Or.inr (Or.inr (Or.inr (List.mem_map_of_mem _ hs)))))))
  · rw [hgate80]; rfl
  · rw [hgate80, traceOf_mk]
    simp

/-- Witness for claim C2 at concrete score-79 and score-80 responses. -/
theorem c2_witness :
    outcomeOf (quality_gate c2Cli79 "spec.cue" 80) = Outcome.exited 1 ∧
    Eff.print ("  • " ++ "too short") ∈ traceOf (quality_gate c2Cli79 "spec.cue" 80) ∧
    Eff.print ("  • " ++ "add detail") ∈ traceOf (quality_gate c2Cli79 "spec.cue" 80) ∧
    outcomeOf (quality_gate c2Cli80 "spec.cue" 80) = Outcome.ret ∧
    Eff.print (qualityPassMsg 80 80) ∈ traceOf (quality_gate c2Cli80 "spec.cue" 80) := by
  obtain ⟨a, b, c, d, e⟩ := c2_thm c2Cli79 c2Cli80 "spec.cue" c2Resp79 c2Resp80
    [.str "too short"] [.str "add detail"] rfl rfl rfl rfl rfl rfl rfl rfl
  exact ⟨a, b "too short" (List.Mem.head _), c "add detail" (List.Mem.head _), d, e⟩

theorem pymPure_def {α : Type} (a : α) : PyM.pure a = (([], Except.ok a) : PyM α) := rfl

/-- Claim C3: the CI/CD check always performs all four sub-invocations
(quality, coverage, gaps, check) in order, whatever the scores are (no
short-circuiting when an earlier threshold fails); and with thresholds
80 and 70.0 and results 90, 60.0, zero critical gaps and zero failed
tests it terminates with exit code 1. -/
theorem c3_thm (cli : Cli) (sp : String) (qt : Int) (ct q c cr f : Rat)
    (quality cove gaps chk : JsonResponse) (sb : List (String × Json)) (pv tv : Json)
    (h1 : run_intent_command cli "quality" [sp] = .ok quality)
    (h2 : quality.data.lookup "overall_score" = some (.num q))
    (h3 : run_intent_command cli "coverage" [sp] = .ok cove)
    (h4 : cove.data.lookup "overall_score" = some (.num c))
    (h5 : run_intent_command cli "gaps" [sp] = .ok gaps)
    (h6 : gaps.data.lookup "severity_breakdown" = some (.obj sb))
    (h6b : sb.lookup "critical" = some (.num cr))
    (h7 : gaps.data.lookup "security_gaps" = some (.arr []))
    (h8 : run_intent_command cli "check" [sp] = .ok chk)
    (h9 : chk.data.lookup "passed" = some pv)
    (h10 : chk.data.lookup "total" = some tv)
    (h11 : chk.data.lookup "failed" = some (.num f)) :
    invokesOf (traceOf (cicd_check cli sp qt ct false)) =
      [fullCommand "quality" [sp], fullCommand "coverage" [sp],
       fullCommand "gaps" [sp], fullCommand "check" [sp]] ∧
    ((q = 90 ∧ c = 60 ∧ cr = 0 ∧ f = 0 ∧ qt = 80 ∧ ct = 70) →
      outcomeOf (cicd_check cli sp qt ct false) = Outcome.exited 1) := by
  constructor
  · by_cases hq : q < (qt : Rat) <;> by_cases hc : c < ct <;>
      by_cases hcr : (0 : Rat) < cr <;> by_cases hf : (0 : Rat) < f <;>
      simp [cicd_check, h1, h3, h5, h8, getNum_of_lookup h2, getNum_of_lookup h4,
        getObj_of_lookup h6, getNum_of_lookup h6b, getArr_of_lookup h7,
        getItem_of_lookup h9, getItem_of_lookup h10, getNum_of_lookup h11,
        pymBind_eq, pymBind_ok, pymBind_error, emit_eq, emitAll_eq, halt_eq,
        liftE_ok, liftE_error, pymPure_eq, pymPure_def, criticalGapPrints,
        invokesOf, traceOf, hq, hc, hcr, hf]
  · rintro ⟨rfl, rfl, rfl, rfl, rfl, rfl⟩
    have hq : ¬ ((90 : Rat) < ((80 : Int) : Rat)) := by norm_num
    have hq2 : ¬ ((90 : Rat) < (80 : Rat)) := by norm_num
    have hc : (60 : Rat) < (70 : Rat) := by norm_num
    have hcr : ¬ ((0 : Rat) < (0 : Rat)) := by norm_num
    simp [cicd_check, h1, h3, h5, h8, getNum_of_lookup h2, getNum_of_lookup h4,
      getObj_of_lookup h6, getNum_of_lookup h6b, getArr_of_lookup h7,
      getItem_of_lookup h9, getItem_of_lookup h10, getNum_of_lookup h11,
      pymBind_eq, pymBind_ok, pymBind_error, emit_eq, emitAll_eq, halt_eq,
      liftE_ok, liftE_error, pymPure_eq, pymPure_def, criticalGapPrints,
      outcomeOf, hq, hq2, hc, hcr]

/-- Witness for claim C3 at the concrete four-response CLI. -/
theorem c3_witness :
    invokesOf (traceOf (cicd_check c3Cli "spec.cue" 80 70 false)) =
      [fullCommand "quality" ["spec.cue"], fullCommand "coverage" ["spec.cue"],
       fullCommand "gaps" ["spec.cue"], fullCommand "check" ["spec.cue"]] ∧
    outcomeOf (cicd_check c3Cli "spec.cue" 80 70 false) = Outcome.exited 1 := by
  obtain ⟨a, b⟩ := c3_thm c3Cli "spec.cue" 80 70 90 60 0 0
    c3QualityResp c3CoverageResp c3GapsResp c3CheckResp
    [("critical", .num 0)] (.num 5) (.num 5)
    rfl rfl rfl rfl rfl rfl rfl rfl rfl rfl rfl rfl
  exact ⟨a, b ⟨rfl, rfl, rfl, rfl, rfl, rfl⟩⟩

theorem pymBind_ok_of {α β : Type} (x : PyM α) {a : α} (f : α → PyM β)
    (h : x.2 = Except.ok a) : PyM.bind x f = ((x.1 ++ (f a).1, (f a).2) : PyM β) := by
  obtain ⟨w, r⟩ := x
  cases r with
  | error e => exact absurd h (by simp)
  | ok b =>
    have hb : b = a := by simpa using h
    subst hb
    rfl

theorem invokesOf_nil : invokesOf [] = [] := rfl

theorem invokesOf_cons_print (s : String) (es : List Eff) :
    invokesOf (Eff.print s :: es) = invokesOf es := rfl

theorem invokesOf_cons_printErr (s : String) (es : List Eff) :
    invokesOf (Eff.printErr s :: es) = invokesOf es := rfl

theorem invokesOf_cons_write (n : String) (c : List (String × Json)) (es : List Eff) :
    invokesOf (Eff.write n c :: es) = invokesOf es := rfl

theorem invokesOf_cons_invoke (v : List String) (es : List Eff) :
    invokesOf (Eff.invoke v :: es) = v :: invokesOf es := rfl

theorem invokesOf_append (a b : List Eff) :
    invokesOf (a ++ b) = invokesOf a ++ invokesOf b := by
  simp [invokesOf]

theorem auto_loop_chains (cli : Cli) (hcli : AlwaysChains cli) :
    ∀ (rem depth : Nat) (r : JsonResponse) (na : NextAction) (rest2 : List NextAction)
      (t0 t1 : String) (ts : List String),
      r.next_actions = na :: rest2 → pySplit na.command = t0 :: t1 :: ts →
      (invokesOf (auto_workflow_loop cli r depth rem).1).length = rem ∧
      (auto_workflow_loop cli r depth rem).2 = Except.ok () := by
  intro rem
  induction rem with
  | zero => intro depth r na rest2 t0 t1 ts hna hsplit; exact ⟨rfl, rfl⟩
  | succ n ih =>
    intro depth r na rest2 t0 t1 ts hna hsplit
    obtain ⟨r2, na2, rest2b, t0b, t1b, tsb, hrun, hna2, hsplit2⟩ :=
      hcli t1 (ts.filter (fun a => !pyStartsWith a "--"))
    have hrec := ih (depth + 1) r2 na2 rest2b t0b t1b tsb hna2 hsplit2
    simp only [auto_workflow_loop, hna, hsplit, hrun, pymBind_eq, pymBind_ok, pymBind_error,
      emit_eq, emitAll_eq, halt_eq, liftE_ok, liftE_error, pymPure_eq, pymPure_def]
    constructor
    · simp [invokesOf_cons_print, invokesOf_cons_invoke, invokesOf_append, invokesOf_nil,
        hrec.1]
    · simp [hrec.2]

/-- Claim C4: for the chained workflow driver with max depth 3, against
a CLI whose every response carries a non-empty next-actions list,
exactly 4 invocations occur (1 initial plus 3 chained) and the loop
then stops normally, regardless of what the final response suggests. -/
theorem c4_thm (cli : Cli) (sp : String) (hcli : AlwaysChains cli) :
    (invokesOf (traceOf (auto_workflow cli sp 3))).length = 4 ∧
    outcomeOf (auto_workflow cli sp 3) = Outcome.ret := by
  obtain ⟨r, na, rest2, t0, t1, ts, hrun, hna, hsplit⟩ := hcli "quality" [sp]
  have hloop := auto_loop_chains cli hcli 3 0 r na rest2 t0 t1 ts hna hsplit
  have hbind := pymBind_ok_of (auto_workflow_loop cli r 0 3)
    (fun _ : Unit => (([Eff.print "\n=== Workflow Complete ==="], Except.ok ()) : PyM Unit))
    hloop.2
  constructor
  · simp [auto_workflow, hrun, pymBind_eq, pymBind_ok, pymBind_error, emit_eq,
      halt_eq, liftE_ok, pymPure_eq, hbind, traceOf, invokesOf_cons_print,
      invokesOf_cons_invoke, invokesOf_append, invokesOf_nil, hloop.1]
  · simp [auto_workflow, hrun, pymBind_eq, pymBind_ok, pymBind_error, emit_eq,
      halt_eq, liftE_ok, pymPure_eq, hbind, outcomeOf]

/-- Witness for claim C4 with a CLI that suggests the same next action
forever. -/
theorem c4_witness :
    (invokesOf (traceOf (auto_workflow c4Cli "spec.cue" 3))).length = 4 ∧
    outcomeOf (auto_workflow c4Cli "spec.cue" 3) = Outcome.ret := by
  refine c4_thm c4Cli "spec.cue" ?_
  intro c a
  exact ⟨c4Resp, c4Na, [], "intent", "coverage", ["spec.cue", "--json=true"], rfl, rfl, rfl⟩

theorem mem_pymBind_fst {α β : Type} {e : Eff} (x : PyM α) (f : α → PyM β)
    (h : e ∈ x.1) : e ∈ (PyM.bind x f).1 := by
  obtain ⟨w, r⟩ := x
  cases r with
  | error he => exact h
  | ok a => exact List.mem_append_left _ h

theorem auto_loop_first_invoke (cli : Cli) (r : JsonResponse) (depth rem : Nat)
    (na : NextAction) (rest2 : List NextAction) (t0 t1 : String) (ts : List String)
    (h2 : r.next_actions = na :: rest2) (hsp : pySplit na.command = t0 :: t1 :: ts) :
    Eff.invoke (fullCommand t1 (ts.filter (fun a => !pyStartsWith a "--"))) ∈
      (auto_workflow_loop cli r depth (rem + 1)).1 := by
  simp only [auto_workflow_loop, h2, hsp, pymBind_eq, pymBind_ok, pymBind_error, emit_eq,
    liftE_ok, liftE_error, pymPure_eq, pymPure_def]
  simp [List.mem_cons]

/-- Claim C9: on an iteration the chained workflow driver uses only the
first next action, splits its command string on whitespace, discards
the leading tool-name token, takes the second token as the sub-command
and the remaining tokens that do not begin with the flag marker as
positional arguments, and performs exactly that invocation; the
spec-side tokenization specActionArgs describes the invocation the
driver emits. -/
theorem c9_thm (cli : Cli) (sp : String) (r : JsonResponse) (na : NextAction)
    (rest2 : List NextAction) (sub : String) (args : List String)
    (h1 : run_intent_command cli "quality" [sp] = .ok r)
    (h2 : r.next_actions = na :: rest2)
    (h3 : specActionArgs na.command = some (sub, args)) :
    Eff.invoke (fullCommand sub args) ∈ traceOf (auto_workflow cli sp 3) := by
  rcases hsp : pySplit na.command with _ | ⟨t0, _ | ⟨t1, ts⟩⟩
  · simp [specActionArgs, hsp] at h3
  · simp [specActionArgs, hsp] at h3
  · simp only [specActionArgs, hsp, Option.some.injEq, Prod.mk.injEq] at h3
    obtain ⟨rfl, rfl⟩ := h3
    have hmem : Eff.invoke (fullCommand t1 (ts.filter (fun a => !pyStartsWith a "--"))) ∈
        (auto_workflow_loop cli r 0 3).1 :=
      auto_loop_first_invoke cli r 0 2 na rest2 t0 t1 ts h2 hsp
    have htr : traceOf (auto_workflow cli sp 3) =
        Eff.print "Starting automated workflow...\n" ::
        Eff.invoke (fullCommand "quality" [sp]) ::
        (PyM.bind (auto_workflow_loop cli r 0 3)
          (fun _ : Unit =>
            (([Eff.print "\n=== Workflow Complete ==="], Except.ok ()) : PyM Unit))).1 := by
      simp only [auto_workflow, h1, pymBind_eq, pymBind_ok, pymBind_error, emit_eq,
        liftE_ok, traceOf]
      rfl
    rw [htr]
    exact List.mem_cons_of_mem _ (List.mem_cons_of_mem _ (mem_pymBind_fst _ _ hmem))

/-- Witness for claim C9 at a concrete next-action command line. -/
theorem c9_witness :
    Eff.invoke (fullCommand "coverage" ["spec.cue"]) ∈
      traceOf (auto_workflow c4Cli "spec.cue" 3) :=
  c9_thm c4Cli "spec.cue" c4Resp c4Na [] "coverage" ["spec.cue"] rfl rfl rfl

/-- Claim C5: robust execution given a parsed response with success
false and metadata exit code 7 terminates the process with exit code 7
(the response value, not a constant); given output whose JSON parse
fails it terminates with exit code 4. -/
theorem c5_thm (cli cli2 : Cli) (sp sp2 : String) (r : JsonResponse) (rc : Int)
    (h1 : run_intent_command cli "quality" [sp] = .ok r)
    (h2 : r.success = false)
    (h3 : r.metadata.exit_code = 7)
    (h4 : cli2 (fullCommand "quality" [sp2]) = some ⟨rc, .invalidJson⟩) :
    outcomeOf (robust_execution cli sp) = Outcome.exited 7 ∧
    outcomeOf (robust_execution cli2 sp2) = Outcome.exited 4 := by
  constructor
  · simp only [robust_execution, h1, h2, h3, pymBind_eq, pymBind_ok, pymBind_error,
      emit_eq, emitAll_eq, halt_eq, liftE_ok, liftE_error, pymPure_eq, pymPure_def]
    by_cases hfx : (List.filter (fun e => truthyOpt e.fix_command) r.errors).isEmpty = false
    · rw [if_pos hfx]
      simp [outcomeOf]
    · rw [if_neg hfx]
      simp [outcomeOf]
  · have hrun : run_intent_command cli2 "quality" [sp2] = .error .jsonDecodeError := by
      simp [run_intent_command, h4, subprocessRun]
    simp [robust_execution, hrun, pymBind_eq, pymBind_ok, pymBind_error, emit_eq,
      emitAll_eq, halt_eq, liftE_ok, liftE_error, pymPure_eq, pymPure_def, outcomeOf]

/-- Witness for claim C5 at a failing response and an invalid-JSON
output. -/
theorem c5_witness :
    outcomeOf (robust_execution c5GoodCli "spec.cue") = Outcome.exited 7 ∧
    outcomeOf (robust_execution c5BadCli "spec.cue") = Outcome.exited 4 :=
  c5_thm c5GoodCli c5BadCli "spec.cue" "spec.cue" c5FailResp 0 rfl rfl rfl rfl

theorem writesOf_nil : writesOf [] = [] := rfl

theorem writesOf_cons_print (s : String) (es : List Eff) :
    writesOf (Eff.print s :: es) = writesOf es := rfl

theorem writesOf_cons_printErr (s : String) (es : List Eff) :
    writesOf (Eff.printErr s :: es) = writesOf es := rfl

theorem writesOf_cons_invoke (v : List String) (es : List Eff) :
    writesOf (Eff.invoke v :: es) = writesOf es := rfl

theorem writesOf_cons_write (n : String) (c : List (String × Json)) (es : List Eff) :
    writesOf (Eff.write n c :: es) = (n, c) :: writesOf es := rfl

theorem writesOf_append (a b : List Eff) :
    writesOf (a ++ b) = writesOf a ++ writesOf b := by
  simp [writesOf]

theorem beadPrints_ok : ∀ (bs : List Json) (i : Nat), (∀ b ∈ bs, WellFormedBead b) →
    (beadPrints i bs).2 = Except.ok () ∧ (beadPrints i bs).1.length = 5 * bs.length ∧
    writesOf (beadPrints i bs).1 = [] ∧ invokesOf (beadPrints i bs).1 = [] := by
  intro bs
  induction bs with
  | nil => intro i h; exact ⟨rfl, rfl, rfl, rfl⟩
  | cons b rest ih =>
    intro i h
    obtain ⟨fs, rfl, k1, k2, k3, k4, k5, k6⟩ := h b (List.mem_cons_self b rest)
    obtain ⟨v1, hv1⟩ := Option.isSome_iff_exists.mp k1
    obtain ⟨v2, hv2⟩ := Option.isSome_iff_exists.mp k2
    obtain ⟨v3, hv3⟩ := Option.isSome_iff_exists.mp k3
    obtain ⟨v4, hv4⟩ := Option.isSome_iff_exists.mp k4
    obtain ⟨v5, hv5⟩ := Option.isSome_iff_exists.mp k5
    obtain ⟨v6, hv6⟩ := Option.isSome_iff_exists.mp k6
    have hrec := ih (i + 1) (fun b2 hb => h b2 (List.mem_cons_of_mem _ hb))
    simp only [beadPrints, asObj, getItem_of_lookup hv1, getItem_of_lookup hv2,
      getItem_of_lookup hv3, getItem_of_lookup hv4, getItem_of_lookup hv5,
      getItem_of_lookup hv6, pymBind_eq, pymBind_ok, pymBind_error, emit_eq,
      emitAll_eq, halt_eq, liftE_ok, liftE_error, pymPure_eq, pymPure_def]
    refine ⟨by simp [hrec.1], ?_, ?_, ?_⟩
    · simp [hrec.2.1]
      omega
    · simp [writesOf_cons_print, hrec.2.2.1]
    · simp [invokesOf_cons_print, hrec.2.2.2]

theorem exceptBind_ok_left {α β : Type} (a : α) (f : α → Except PyErr β) :
    (Except.ok a : Except PyErr α) >>= f = f a := rfl

/-- Claim C6: test-with-feedback on a check response with zero failures
writes no file and never invokes the feedback sub-command; with two
failures it writes the data to check-results.json, invokes feedback
with that path through a results argument, prints one five-line block
per entry of the feedback data fix beads, and terminates with exit
code 1. -/
theorem c6_thm (cli0 cli2 : Cli) (sp : String) (r0 r2 fb : JsonResponse)
    (t0v p0v s0v d0v t2v p2v s2v d2v : Json) (beads : List Json)
    (h1 : run_intent_command cli0 "check" [sp] = .ok r0)
    (h2 : r0.data.lookup "total" = some t0v)
    (h3 : r0.data.lookup "passed" = some p0v)
    (h4 : r0.data.lookup "failed" = some (.num 0))
    (h5 : r0.data.lookup "skipped" = some s0v)
    (h6 : r0.data.lookup "duration_ms" = some d0v)
    (h7 : run_intent_command cli2 "check" [sp] = .ok r2)
    (h8 : r2.data.lookup "total" = some t2v)
    (h9 : r2.data.lookup "passed" = some p2v)
    (h10 : r2.data.lookup "failed" = some (.num 2))
    (h11 : r2.data.lookup "skipped" = some s2v)
    (h12 : r2.data.lookup "duration_ms" = some d2v)
    (h13 : run_intent_command cli2 "feedback" ["--results", "check-results.json"] = .ok fb)
    (h14 : fb.data.lookup "fix_beads" = some (.arr beads))
    (h15 : ∀ b ∈ beads, WellFormedBead b) :
    writesOf (traceOf (test_with_feedback cli0 sp)) = [] ∧
    invokesOf (traceOf (test_with_feedback cli0 sp)) = [fullCommand "check" [sp]] ∧
    outcomeOf (test_with_feedback cli0 sp) = Outcome.ret ∧
    writesOf (traceOf (test_with_feedback cli2 sp)) = [("check-results.json", r2.data)] ∧
    invokesOf (traceOf (test_with_feedback cli2 sp)) =
      [fullCommand "check" [sp], fullCommand "feedback" ["--results", "check-results.json"]] ∧
    outcomeOf (test_with_feedback cli2 sp) = Outcome.exited 1 ∧
    (∃ t, traceOf (test_with_feedback cli2 sp) = t ++ (beadPrints 1 beads).1) ∧
    (beadPrints 1 beads).1.length = 5 * beads.length := by
  have hz : ¬ ((0 : Rat) < (0 : Rat)) := by norm_num
  have hp : (0 : Rat) < (2 : Rat) := by norm_num
  have hbead := beadPrints_ok beads 1 h15
  have hbind := pymBind_ok_of (beadPrints 1 beads)
    (fun _ : Unit => (([], Except.error (Halt.exited 1)) : PyM Unit)) hbead.1
  have htr0 : test_with_feedback cli0 sp = ((
      [Eff.print "Running tests...\n", Eff.invoke (fullCommand "check" [sp]),
       Eff.print "Test Results:", Eff.print ("  Total:    " ++ pyStr t0v),
       Eff.print ("  Passed:   " ++ pyStr p0v),
       Eff.print ("  Failed:   " ++ pyStr (Json.num 0)),
       Eff.print ("  Skipped:  " ++ pyStr s0v),
       Eff.print ("  Duration: " ++ pyStr d0v ++ "ms"),
       Eff.print "\n✅ All tests passed!"], Except.ok ()) : PyM Unit) := by
    simp only [test_with_feedback, h1, getItem_of_lookup h2, getItem_of_lookup h3,
      getItem_of_lookup h4, getItem_of_lookup h5, getItem_of_lookup h6,
      getNum_of_lookup h4, exceptBind_ok_left, asNum, pymBind_eq, pymBind_ok,
      pymBind_error, emit_eq, emitAll_eq, halt_eq, liftE_ok, liftE_error, pymPure_eq,
      pymPure_def]
    simp [hz]
  have htr2 : test_with_feedback cli2 sp = ((
      [Eff.print "Running tests...\n", Eff.invoke (fullCommand "check" [sp]),
       Eff.print "Test Results:", Eff.print ("  Total:    " ++ pyStr t2v),
       Eff.print ("  Passed:   " ++ pyStr p2v),
       Eff.print ("  Failed:   " ++ pyStr (Json.num 2)),
       Eff.print ("  Skipped:  " ++ pyStr s2v),
       Eff.print ("  Duration: " ++ pyStr d2v ++ "ms"),
       Eff.print "\n❌ Tests failed. Generating fix beads...\n",
       Eff.write "check-results.json" r2.data,
       Eff.invoke (fullCommand "feedback" ["--results", "check-results.json"]),
       Eff.print "Fix Beads Generated:"] ++ (beadPrints 1 beads).1,
      Except.error (Halt.exited 1)) : PyM Unit) := by
    simp only [test_with_feedback, h7, getItem_of_lookup h8, getItem_of_lookup h9,
      getItem_of_lookup h10, getItem_of_lookup h11, getItem_of_lookup h12,
      getNum_of_lookup h10, h13, getArr_of_lookup h14, pymBind_eq, pymBind_ok,
      pymBind_error, emit_eq, emitAll_eq, halt_eq, liftE_ok, liftE_error, pymPure_eq,
      pymPure_def, hbind, exceptBind_ok_left, asNum]
    simp [hp]
  refine ⟨?_, ?_, ?_, ?_, ?_, ?_, ?_, ?_⟩
  · rw [htr0]; rfl
  · rw [htr0]; rfl
  · rw [htr0]; rfl
  · rw [htr2, traceOf_mk]
    simp [writesOf_append, writesOf_cons_print, writesOf_cons_invoke, writesOf_cons_write,
      writesOf_nil, hbead.2.2.1]
  · rw [htr2, traceOf_mk]
    simp [invokesOf_append, invokesOf_cons_print, invokesOf_cons_invoke,
      invokesOf_cons_write, invokesOf_nil, hbead.2.2.2]
  · rw [htr2]; rfl
  · exact ⟨_, by rw [htr2, traceOf_mk]⟩
  · exact hbead.2.1

/-- Witness for claim C6 at concrete clean and failing check runs. -/
theorem c6_witness :
    writesOf (traceOf (test_with_feedback c6Cli0 "spec.cue")) = [] ∧
    invokesOf (traceOf (test_with_feedback c6Cli0 "spec.cue")) =
      [fullCommand "check" ["spec.cue"]] ∧
    outcomeOf (test_with_feedback c6Cli0 "spec.cue") = Outcome.ret ∧
    writesOf (traceOf (test_with_feedback c6Cli2 "spec.cue")) =
      [("check-results.json", c6Resp2.data)] ∧
    invokesOf (traceOf (test_with_feedback c6Cli2 "spec.cue")) =
      [fullCommand "check" ["spec.cue"],
       fullCommand "feedback" ["--results", "check-results.json"]] ∧
    outcomeOf (test_with_feedback c6Cli2 "spec.cue") = Outcome.exited 1 ∧
    (∃ t, traceOf (test_with_feedback c6Cli2 "spec.cue") =
      t ++ (beadPrints 1 [c6Bead, c6Bead]).1) ∧
    (beadPrints 1 [c6Bead, c6Bead]).1.length = 5 * ([c6Bead, c6Bead] : List Json).length := by
  refine c6_thm c6Cli0 c6Cli2 "spec.cue" c6Resp0 c6Resp2 c6FbResp
    (.num 5) (.num 5) (.num 0) (.num 10) (.num 5) (.num 3) (.num 0) (.num 10)
    [c6Bead, c6Bead] rfl rfl rfl rfl rfl rfl rfl rfl rfl rfl rfl rfl rfl rfl ?_
  intro b hb
  have hbe : b = c6Bead := by simpa using hb
  subst hbe
  exact ⟨_, rfl, by decide, by decide, by decide, by decide, by decide, by decide⟩

theorem exceptBind_ok_split {α β : Type} {x : Except PyErr α} {f : α → Except PyErr β} {b : β}
    (h : x >>= f = .ok b) : ∃ a, x = .ok a ∧ f a = .ok b := by
  cases x with
  | error e => exact absurd h (by simp [exceptBind_eq, Except.bind])
  | ok a => exact ⟨a, rfl, h⟩

theorem getItem_ok_isSome {d : List (String × Json)} {k : String} {v : Json}
    (h : getItem d k = .ok v) : (d.lookup k).isSome := by
  unfold getItem at h
  cases hl : d.lookup k with
  | none => rw [hl] at h; exact absurd h (by simp)
  | some w => simp

theorem parse_ok_required (fields : List (String × Json)) (r : JsonResponse)
    (h : parseResponse (.obj fields) = .ok r) :
    ∀ k ∈ requiredResponseKeys, (fields.lookup k).isSome := by
  simp only [parseResponse, asObj, exceptBind_ok_left] at h
  obtain ⟨sb, hsb, h⟩ := exceptBind_ok_split h
  obtain ⟨sv, hsv, _⟩ := exceptBind_ok_split hsb
  obtain ⟨ab, hab, h⟩ := exceptBind_ok_split h
  obtain ⟨av, hav, _⟩ := exceptBind_ok_split hab
  obtain ⟨cb, hcb, h⟩ := exceptBind_ok_split h
  obtain ⟨cv, hcv, _⟩ := exceptBind_ok_split hcb
  obtain ⟨db, hdb, h⟩ := exceptBind_ok_split h
  obtain ⟨dv, hdv, _⟩ := exceptBind_ok_split hdb
  obtain ⟨eb, heb, h⟩ := exceptBind_ok_split h
  obtain ⟨ev, hev, _⟩ := exceptBind_ok_split heb
  obtain ⟨el, hel, h⟩ := exceptBind_ok_split h
  obtain ⟨nb, hnb, h⟩ := exceptBind_ok_split h
  obtain ⟨nv, hnv, _⟩ := exceptBind_ok_split hnb
  obtain ⟨nl, hnl, h⟩ := exceptBind_ok_split h
  obtain ⟨mb, hmb, h⟩ := exceptBind_ok_split h
  obtain ⟨mv, hmv, _⟩ := exceptBind_ok_split hmb
  intro k hk
  simp only [requiredResponseKeys, List.mem_cons, List.mem_singleton] at hk
  rcases hk with rfl | rfl | rfl | rfl | rfl | rfl | rfl | hfalse
  · exact getItem_ok_isSome hsv
  · exact getItem_ok_isSome hav
  · exact getItem_ok_isSome hcv
  · exact getItem_ok_isSome hdv
  · exact getItem_ok_isSome hev
  · exact getItem_ok_isSome hnv
  · exact getItem_ok_isSome hmv
  · cases hfalse

/-- Claim C7: parsing otherwise-valid JSON in which any required field
(success, action, command, data, errors, next_actions, metadata) is
absent yields an explicit parse failure, never a silently defaulted
response. -/
theorem c7_thm (fields : List (String × Json)) (k : String)
    (hk : k ∈ requiredResponseKeys) (hmiss : fields.lookup k = none) :
    ∃ e, parseResponse (.obj fields) = .error e := by
  cases hp : parseResponse (.obj fields) with
  | error e => exact ⟨e, rfl⟩
  | ok r =>
    have hs := parse_ok_required fields r hp k hk
    rw [hmiss] at hs
    exact absurd hs (by simp)

/-- Witness for claim C7: JSON lacking the success field fails to
parse. -/
theorem c7_witness : ∃ e, parseResponse (Json.obj c7Fields) = .error e :=
  c7_thm c7Fields "success" (by decide) rfl

/-- Claim C8: for every command name and argument list the invocation
runner does not raise when the subprocess exits nonzero: its result is
exactly the parsed response data, independent of the exit code (the
checked variant of subprocess.run would raise, but the source disables
the check); only failure to launch the process is an exceptional
condition. -/
theorem c8_thm (cli : Cli) (c : String) (a : List String) (rc : Int) (j : Json)
    (h : cli (fullCommand c a) = some ⟨rc, .json j⟩) :
    run_intent_command cli c a = parseResponse j ∧
    (∀ p : CompletedProcess, p.returncode ≠ 0 →
      subprocessRun true (some p) = .error .calledProcessError ∧
      subprocessRun false (some p) = .ok p) ∧
    (∀ (cli2 : Cli) (c2 : String) (a2 : List String), cli2 (fullCommand c2 a2) = none →
      run_intent_command cli2 c2 a2 = .error .osError) := by
  refine ⟨?_, ?_, ?_⟩
  · simp [run_intent_command, h, subprocessRun]
  · intro p hp
    constructor
    · simp [subprocessRun, bne_iff_ne, hp]
    · simp [subprocessRun]
  · intro cli2 c2 a2 h2
    simp [run_intent_command, h2, subprocessRun]

/-- Witness for claim C8 at a process exiting 3 and a spawn failure. -/
theorem c8_witness :
    run_intent_command c8Cli "quality" ["spec.cue"] = parseResponse c2Json80 ∧
    subprocessRun true (some ⟨3, .json c2Json80⟩) = .error .calledProcessError ∧
    run_intent_command c8NoneCli "quality" ["spec.cue"] = .error .osError := by
  obtain ⟨x, y, z⟩ := c8_thm c8Cli "quality" ["spec.cue"] 3 c2Json80 rfl
  exact ⟨x, (y ⟨3, .json c2Json80⟩ (by decide)).1, z c8NoneCli "quality" ["spec.cue"] rfl⟩

theorem guardKeys_ok_mem {allowed : List String} {fs : List (String × Json)} {u : Unit}
    (h : guardKeys allowed fs = .ok u) : ∀ kv ∈ fs, kv.1 ∈ allowed := by
  intro kv hkv
  unfold guardKeys at h
  by_cases hall : fs.all (fun kv => decide (kv.1 ∈ allowed)) = true
  · exact of_decide_eq_true (List.all_eq_true.mp hall kv hkv)
  · rw [if_neg hall] at h
    exact absurd h (by simp)

theorem mkJsonError_ok_keys {efs : List (String × Json)} {er : JsonError}
    (h : mkJsonError (.obj efs) = .ok er) : ∀ kv ∈ efs, kv.1 ∈ jsonErrorKeys := by
  simp only [mkJsonError, asObj, exceptBind_ok_left] at h
  obtain ⟨u, hg, _⟩ := exceptBind_ok_split h
  exact guardKeys_ok_mem hg

theorem mkNextAction_ok_keys {nfs : List (String × Json)} {na : NextAction}
    (h : mkNextAction (.obj nfs) = .ok na) : ∀ kv ∈ nfs, kv.1 ∈ nextActionKeys := by
  simp only [mkNextAction, asObj, exceptBind_ok_left] at h
  obtain ⟨u, hg, _⟩ := exceptBind_ok_split h
  exact guardKeys_ok_mem hg

theorem mkJsonMetadata_ok_keys {mfs : List (String × Json)} {md : JsonMetadata}
    (h : mkJsonMetadata (.obj mfs) = .ok md) : ∀ kv ∈ mfs, kv.1 ∈ jsonMetadataKeys := by
  simp only [mkJsonMetadata, asObj, exceptBind_ok_left] at h
  obtain ⟨u, hg, _⟩ := exceptBind_ok_split h
  exact guardKeys_ok_mem hg

theorem mapME_ok_forall {α β : Type} (f : α → Except PyErr β) :
    ∀ (xs : List α) (ys : List β), mapME f xs = .ok ys → ∀ x ∈ xs, ∃ y, f x = .ok y := by
  intro xs
  induction xs with
  | nil => intro ys h x hx; cases hx
  | cons a rest ih =>
    intro ys h x hx
    simp only [mapME] at h
    cases hfa : f a with
    | error e => rw [hfa] at h; exact absurd h (by simp)
    | ok y =>
      rw [hfa] at h
      cases hrest : mapME f rest with
      | error e => rw [hrest] at h; exact absurd h (by simp)
      | ok ys2 =>
        cases hx with
        | head => exact ⟨y, hfa⟩
        | tail _ hx2 => exact ih ys2 hrest x hx2

theorem parse_ok_components (fields : List (String × Json)) (r : JsonResponse)
    (h : parseResponse (.obj fields) = .ok r) :
    (∀ es, fields.lookup "errors" = some (.arr es) →
      ∃ ys, mapME mkJsonError es = .ok ys) ∧
    (∀ ns, fields.lookup "next_actions" = some (.arr ns) →
      ∃ ys, mapME mkNextAction ns = .ok ys) ∧
    (∀ mfs, fields.lookup "metadata" = some (.obj mfs) →
      ∃ md, mkJsonMetadata (.obj mfs) = .ok md) := by
  simp only [parseResponse, asObj, exceptBind_ok_left] at h
  obtain ⟨sb, hsb, h⟩ := exceptBind_ok_split h
  obtain ⟨ab, hab, h⟩ := exceptBind_ok_split h
  obtain ⟨cb, hcb, h⟩ := exceptBind_ok_split h
  obtain ⟨db, hdb, h⟩ := exceptBind_ok_split h
  obtain ⟨eb, heb, h⟩ := exceptBind_ok_split h
  obtain ⟨ev, hev, hea⟩ := exceptBind_ok_split heb
  obtain ⟨el, hel, h⟩ := exceptBind_ok_split h
  obtain ⟨nb, hnb, h⟩ := exceptBind_ok_split h
  obtain ⟨nv, hnv, hna⟩ := exceptBind_ok_split hnb
  obtain ⟨nl, hnl, h⟩ := exceptBind_ok_split h
  obtain ⟨mb, hmb, h⟩ := exceptBind_ok_split h
  obtain ⟨mv, hmv, hmk⟩ := exceptBind_ok_split hmb
  refine ⟨?_, ?_, ?_⟩
  · intro es hes
    have : ev = Json.arr es := by
      have := getItem_of_lookup hes
      rw [this] at hev
      exact (Except.ok.injEq _ _).mp hev.symm
    subst this
    have : eb = es := (by simpa [asArr] using hea : es = eb).symm
    subst this
    exact ⟨el, hel⟩
  · intro ns hns
    have : nv = Json.arr ns := by
      have := getItem_of_lookup hns
      rw [this] at hnv
      exact (Except.ok.injEq _ _).mp hnv.symm
    subst this
    have : nb = ns := (by simpa [asArr] using hna : ns = nb).symm
    subst this
    exact ⟨nl, hnl⟩
  · intro mfs hmfs
    have : mv = Json.obj mfs := by
      have := getItem_of_lookup hmfs
      rw [this] at hmv
      exact (Except.ok.injEq _ _).mp hmv.symm
    subst this
    exact ⟨mb, hmk⟩

/-- Claim C10: parsing fails with an exception whenever any entry of
errors carries a key outside the declared JsonError fields, or any
entry of next_actions carries a key outside the declared NextAction
fields, or metadata carries a key outside its five declared fields, so
any additive change to these nested wire objects breaks the client. -/
theorem c10_thm (fields : List (String × Json)) (k : String) (v : Json)
    (hcase :
      (∃ es efs, fields.lookup "errors" = some (.arr es) ∧ Json.obj efs ∈ es ∧
        (k, v) ∈ efs ∧ k ∉ jsonErrorKeys) ∨
      (∃ ns nfs, fields.lookup "next_actions" = some (.arr ns) ∧ Json.obj nfs ∈ ns ∧
        (k, v) ∈ nfs ∧ k ∉ nextActionKeys) ∨
      (∃ mfs, fields.lookup "metadata" = some (.obj mfs) ∧
        (k, v) ∈ mfs ∧ k ∉ jsonMetadataKeys)) :
    ∃ e, parseResponse (.obj fields) = .error e := by
  cases hp : parseResponse (.obj fields) with
  | error e => exact ⟨e, rfl⟩
  | ok r =>
    exfalso
    obtain ⟨hce, hcn, hcm⟩ := parse_ok_components fields r hp
    rcases hcase with ⟨es, efs, hes, hmem, hkv, hknot⟩ |
        ⟨ns, nfs, hns, hmem, hkv, hknot⟩ | ⟨mfs, hmfs, hkv, hknot⟩
    · obtain ⟨ys, hys⟩ := hce es hes
      obtain ⟨y, hy⟩ := mapME_ok_forall mkJsonError es ys hys (Json.obj efs) hmem
      exact hknot (mkJsonError_ok_keys hy (k, v) hkv)
    · obtain ⟨ys, hys⟩ := hcn ns hns
      obtain ⟨y, hy⟩ := mapME_ok_forall mkNextAction ns ys hys (Json.obj nfs) hmem
      exact hknot (mkNextAction_ok_keys hy (k, v) hkv)
    · obtain ⟨md, hmd⟩ := hcm mfs hmfs
      exact hknot (mkJsonMetadata_ok_keys hmd (k, v) hkv)

/-- Witness for claim C10: an errors entry with the undeclared key
severity fails to parse. -/
theorem c10_witness : ∃ e, parseResponse (Json.obj c10Fields) = .error e :=
  c10_thm c10Fields "severity" (.str "high")
    (Or.inl ⟨[.obj [("code", .str "E1"), ("message", .str "m"), ("severity", .str "high")]],
      [("code", .str "E1"), ("message", .str "m"), ("severity", .str "high")],
      rfl, List.Mem.head _, List.Mem.tail _ (List.Mem.tail _ (List.Mem.head _)), by decide⟩)

